import Mathlib

/-!
Shallow embedding of the skillexa access-control core: the JWT token
service, the authentication routes (register, login, forgot-password,
reset-password), the authorization guard middleware (requireRole,
requirePermission, requireOwnershipOrRole, authenticateToken), the user
deletion route, and the AuditLog model with its closed action enum.

Time is modelled in milliseconds as Nat. The database is a list of user
records; mongoose findOne/findById become List.find?, save becomes an
id-keyed map over the list. External collaborators (bcrypt, the jwt
library signature, nodemailer) are modelled at their observable
interface: the jwt signature is the signing secret carried in the token,
email delivery success is a boolean input, bcrypt hashing is an injective
tagging function.
-/

namespace Skillexa

abbrev Millis := Nat

/-- Session token as produced by jwt.sign in routes/auth.js: the payload
carries the user id and an expiry; the signature is modelled by carrying
the signing secret. -/
structure Token where
  userId : Nat
  iat : Millis
  exp : Millis
  secret : String
deriving Repr, DecidableEq

/-- JWT_EXPIRES_IN defaults to 7d in generateToken. -/
def jwtExpiresInMs : Millis := 7 * 24 * 60 * 60 * 1000

/-- generateToken from routes/auth.js lines 14-18: jwt.sign with the
process secret and the default 7d expiry. -/
def generateToken (secret : String) (now : Millis) (userId : Nat) : Token :=
  { userId := userId, iat := now, exp := now + jwtExpiresInMs, secret := secret }

/-- The two expected jwt.verify failures distinguished by the middleware
catch block: JsonWebTokenError (bad signature or malformed) and
TokenExpiredError. -/
inductive JwtError where
  | invalidToken
  | tokenExpired
deriving Repr, DecidableEq

/-- jwt.verify: signature check against the secret, then expiry check
(a token is expired once the clock reaches its exp claim). -/
def jwtVerify (secret : String) (now : Millis) (t : Token) : Except JwtError Nat :=
  if t.secret ≠ secret then .error .invalidToken
  else if t.exp ≤ now then .error .tokenExpired
  else .ok t.userId

/-- Account record persisted by the credential store, with the fields the
auth flows read and write. -/
structure User where
  id : Nat
  email : String
  password : String
  firstName : String
  lastName : String
  role : String
  isActive : Bool := true
  isEmailVerified : Bool := false
  loginAttempts : Nat := 0
  lockUntil : Option Millis := none
  lastLogin : Option Millis := none
  emailVerificationToken : Option String := none
  passwordResetToken : Option String := none
  passwordResetExpires : Option Millis := none
deriving Repr, DecidableEq

/-- Modelled from the spec: bcrypt password hashing performed by the
missing User model pre-save hook; modelled as an injective tagging so
that equal hashes mean equal passwords. -/
def hashPassword (p : String) : String := "bcrypt$" ++ p

/-- Modelled from the spec: the comparePassword method of the missing
User model; true iff the candidate hashes to the stored hash. -/
def comparePassword (u : User) (candidate : String) : Bool :=
  hashPassword candidate == u.password

/-- Modelled from the spec: the isLocked virtual of the missing User
model; an account is locked while lockout-until is in the future. -/
def isLocked (now : Millis) (u : User) : Bool :=
  match u.lockUntil with
  | some t => decide (now < t)
  | none => false

/-- The lockout threshold: the 5th consecutive failed login locks the
account. -/
def lockoutThreshold : Nat := 5

/-- The lockout cooldown: 2 hours. -/
def lockoutDurationMs : Millis := 2 * 60 * 60 * 1000

/-- Modelled from the spec: the incLoginAttempts method of the missing
User model; increments the failed-login counter and, when the counter
reaches the threshold, sets lockout-until to now plus the fixed
cooldown. -/
def incLoginAttempts (now : Millis) (u : User) : User :=
  let attempts := u.loginAttempts + 1
  if lockoutThreshold ≤ attempts then
    { u with loginAttempts := attempts, lockUntil := some (now + lockoutDurationMs) }
  else
    { u with loginAttempts := attempts }

/-- Modelled from the spec: the resetLoginAttempts method of the missing
User model; clears the counter and the lockout. -/
def resetLoginAttempts (u : User) : User :=
  { u with loginAttempts := 0, lockUntil := none }

abbrev Db := List User

/-- User.findOne on the email field. -/
def findByEmail (db : Db) (email : String) : Option User :=
  db.find? (fun u => u.email == email)

/-- User.findById. -/
def findById (db : Db) (id : Nat) : Option User :=
  db.find? (fun u => u.id == id)

/-- user.save: replace the stored record with the same id. -/
def saveUser (db : Db) (u : User) : Db :=
  db.map (fun v => if v.id == u.id then u else v)

/-- The closed action enum of auditLogSchema in models/AuditLog.js. -/
def auditActionEnum : List String :=
  ["LOGIN", "LOGOUT", "REGISTER", "PASSWORD_RESET", "EMAIL_VERIFY",
   "USER_CREATE", "USER_UPDATE", "USER_DELETE", "USER_ROLE_CHANGE",
   "COURSE_CREATE", "COURSE_UPDATE", "COURSE_DELETE", "COURSE_PUBLISH",
   "ASSIGNMENT_CREATE", "ASSIGNMENT_UPDATE", "ASSIGNMENT_DELETE",
   "GRADE_CREATE", "GRADE_UPDATE", "ENROLLMENT_CREATE", "ENROLLMENT_DELETE",
   "SYSTEM_CONFIG_UPDATE", "BACKUP_CREATE", "BACKUP_RESTORE"]

/-- The severity enum of auditLogSchema. -/
def auditSeverityEnum : List String := ["LOW", "MEDIUM", "HIGH", "CRITICAL"]

/-- The outcome enum of auditLogSchema. -/
def auditStatusEnum : List String := ["SUCCESS", "FAILURE", "WARNING"]

/-- Audit event as submitted to AuditLog.createLog; details is the
free-form payload reduced to string pairs. -/
structure AuditEntry where
  user : Nat
  action : String
  resource : String
  resourceId : Nat
  details : List (String × String) := []
  ipAddress : Option String := none
  userAgent : Option String := none
  severity : String := "LOW"
  status : String := "SUCCESS"
deriving Repr, DecidableEq

/-- AuditLog.createLog: mongoose create, which validates the enum fields
of the schema and rejects the document when a value is outside its
enum. -/
def createLog (e : AuditEntry) : Except String AuditEntry :=
  if auditActionEnum.contains e.action
      && auditSeverityEnum.contains e.severity
      && auditStatusEnum.contains e.status then
    .ok e
  else
    .error "AuditLog validation failed"

/-- Projection of a user into the response payload the routes return
(fullName is the virtual of firstName and lastName). -/
structure UserView where
  id : Nat
  email : String
  firstName : String
  lastName : String
  fullName : String
  role : String
  isEmailVerified : Bool
  isActive : Bool
  lastLogin : Option Millis := none
deriving Repr, DecidableEq

def toView (u : User) : UserView :=
  { id := u.id, email := u.email, firstName := u.firstName,
    lastName := u.lastName, fullName := u.firstName ++ " " ++ u.lastName,
    role := u.role, isEmailVerified := u.isEmailVerified,
    isActive := u.isActive }

/-- HTTP response as emitted by res.status(..).json(..): status, the
message field, the machine-readable code when present, and the token and
user fields of the success bodies. -/
structure ApiResponse where
  status : Nat
  message : String
  code : Option String := none
  token : Option Token := none
  user : Option UserView := none
deriving Repr, DecidableEq

/-- Result of a route handler: the response plus the updated store and
the audit events successfully persisted during the handling. -/
structure Outcome where
  resp : ApiResponse
  db : Db
  audit : List AuditEntry
deriving Repr, DecidableEq

/-- Result of authenticateToken: either req.user is set and the chain
continues, or a response terminates the request. -/
inductive AuthResult where
  | ok (u : User)
  | fail (resp : ApiResponse)
deriving Repr, DecidableEq

/-- authenticateToken from middleware/auth.js lines 7-67. The bearer
header parse is modelled as an optional token; jwt.verify errors map to
the catch block responses; then the account is re-fetched and its
active and lock status re-checked. -/
def authenticateToken (db : Db) (secret : String) (now : Millis)
    (tok : Option Token) : AuthResult :=
  match tok with
  | none =>
    .fail { status := 401, message := "Access token required",
            code := some "TOKEN_REQUIRED" }
  | some t =>
    match jwtVerify secret now t with
    | .error .invalidToken =>
      .fail { status := 401, message := "Invalid token",
              code := some "INVALID_TOKEN" }
    | .error .tokenExpired =>
      .fail { status := 401, message := "Token expired",
              code := some "TOKEN_EXPIRED" }
    | .ok userId =>
      match findById db userId with
      | none =>
        .fail { status := 401, message := "Invalid token - user not found",
                code := some "INVALID_TOKEN" }
      | some user =>
        if !user.isActive then
          .fail { status := 401, message := "Account is deactivated",
                  code := some "ACCOUNT_DEACTIVATED" }
        else if isLocked now user then
          .fail { status := 401, message := "Account is temporarily locked",
                  code := some "ACCOUNT_LOCKED" }
        else .ok user

/-- Result of a guard middleware: pass to the next handler, reject as
unauthenticated, or deny while submitting an audit event to
AuditLog.createLog (fire-and-forget in the source). -/
inductive GuardOutcome where
  | next
  | reject (resp : ApiResponse)
  | denied (resp : ApiResponse) (submitted : AuditEntry)
deriving Repr, DecidableEq

/-- requireRole from middleware/auth.js lines 70-108. -/
def requireRole (roles : List String) (user : Option User)
    (endpoint method ip ua : String) : GuardOutcome :=
  match user with
  | none =>
    .reject { status := 401, message := "Authentication required",
              code := some "AUTH_REQUIRED" }
  | some u =>
    if roles.contains u.role then .next
    else
      .denied
        { status := 403, message := "Insufficient permissions",
          code := some "INSUFFICIENT_PERMISSIONS" }
        { user := u.id, action := "UNAUTHORIZED_ACCESS", resource := "System",
          resourceId := u.id,
          details := [("userRole", u.role), ("endpoint", endpoint), ("method", method)],
          ipAddress := some ip, userAgent := some ua,
          severity := "HIGH", status := "FAILURE" }

/-- requirePermission from middleware/auth.js lines 111-149. The
hasPermission method lives in the missing User model, so its verdict is
taken as an input. -/
def requirePermission (permission : String) (hasPermission : User → Bool)
    (user : Option User) (endpoint method ip ua : String) : GuardOutcome :=
  match user with
  | none =>
    .reject { status := 401, message := "Authentication required",
              code := some "AUTH_REQUIRED" }
  | some u =>
    if hasPermission u then .next
    else
      .denied
        { status := 403, message := "Insufficient permissions",
          code := some "INSUFFICIENT_PERMISSIONS" }
        { user := u.id, action := "UNAUTHORIZED_ACCESS", resource := "System",
          resourceId := u.id,
          details := [("requiredPermission", permission), ("userRole", u.role),
                      ("endpoint", endpoint), ("method", method)],
          ipAddress := some ip, userAgent := some ua,
          severity := "HIGH", status := "FAILURE" }

/-- Request shape seen by requireOwnershipOrRole: req.user, the id route
parameter, and the owning-account reference of the resource a prior
handler may have attached as req.resource (none when no resource is
attached or the resource lacks the owner field). -/
structure OwnershipReq where
  user : Option User
  paramsId : Option String
  resourceOwner : Option String
deriving Repr, DecidableEq

/-- requireOwnershipOrRole from middleware/auth.js lines 152-199:
privileged roles pass; otherwise the id parameter is required, and the
owner comparison runs only when a resource with the owner field was
attached to the request. -/
def requireOwnershipOrRole (allowedRoles : List String)
    (req : OwnershipReq) : GuardOutcome :=
  match req.user with
  | none =>
    .reject { status := 401, message := "Authentication required",
              code := some "AUTH_REQUIRED" }
  | some u =>
    if allowedRoles.contains u.role then .next
    else
      match req.paramsId with
      | none =>
        .reject { status := 400, message := "Resource ID required",
                  code := some "RESOURCE_ID_REQUIRED" }
      | some _ =>
        match req.resourceOwner with
        | some owner =>
          if owner ≠ toString u.id then
            .reject { status := 403,
                      message := "Access denied - not resource owner",
                      code := some "NOT_RESOURCE_OWNER" }
          else .next
        | none => .next

/-- The anti-enumeration message of the forgot-password route. -/
def genericResetMessage : String :=
  "If an account with that email exists, we have sent a password reset link."

/-- POST /auth/login from routes/auth.js lines 106-207: lookup by email,
lock check, active check, password check with counter increment and
MEDIUM/FAILURE audit on mismatch, else counter reset, last-login update,
token issue and LOW/SUCCESS audit. -/
def login (db : Db) (now : Millis) (secret ip ua : String)
    (email password : String) : Outcome :=
  match findByEmail db email with
  | none =>
    { resp := { status := 401, message := "Invalid email or password",
                code := some "INVALID_CREDENTIALS" },
      db := db, audit := [] }
  | some user =>
    if isLocked now user then
      { resp := { status := 423,
                  message := "Account is temporarily locked due to too many failed login attempts",
                  code := some "ACCOUNT_LOCKED" },
        db := db, audit := [] }
    else if !user.isActive then
      { resp := { status := 401, message := "Account is deactivated",
                  code := some "ACCOUNT_DEACTIVATED" },
        db := db, audit := [] }
    else if !comparePassword user password then
      let u2 := incLoginAttempts now user
      let db2 := saveUser db u2
      let entry : AuditEntry :=
        { user := user.id, action := "LOGIN", resource := "User",
          resourceId := user.id,
          details := [("email", email), ("reason", "Invalid password")],
          ipAddress := some ip, userAgent := some ua,
          severity := "MEDIUM", status := "FAILURE" }
      match createLog entry with
      | .error _ =>
        { resp := { status := 500, message := "Login failed",
                    code := some "LOGIN_ERROR" },
          db := db2, audit := [] }
      | .ok e =>
        { resp := { status := 401, message := "Invalid email or password",
                    code := some "INVALID_CREDENTIALS" },
          db := db2, audit := [e] }
    else
      let u1 := if 0 < user.loginAttempts then resetLoginAttempts user else user
      let u2 := { u1 with lastLogin := some now }
      let db2 := saveUser db u2
      let token := generateToken secret now user.id
      let entry : AuditEntry :=
        { user := user.id, action := "LOGIN", resource := "User",
          resourceId := user.id, details := [("email", email)],
          ipAddress := some ip, userAgent := some ua,
          severity := "LOW", status := "SUCCESS" }
      match createLog entry with
      | .error _ =>
        { resp := { status := 500, message := "Login failed",
                    code := some "LOGIN_ERROR" },
          db := db2, audit := [] }
      | .ok e =>
        { resp := { status := 200, message := "Login successful",
                    token := some token,
                    user := some { toView u2 with lastLogin := u2.lastLogin } },
          db := db2, audit := [e] }

/-- POST /auth/register from routes/auth.js lines 26-103: duplicate-email
check, user creation with a fresh verification token, awaited REGISTER
audit, best-effort verification email whose failure is swallowed, token
issue, 201 with token and profile. The fresh id and verification token
and the email-send outcome are inputs. -/
def register (db : Db) (now : Millis) (secret ip ua : String)
    (email password firstName lastName role : String)
    (verifToken : String) (freshId : Nat) (emailOk : Bool) : Outcome :=
  match findByEmail db email with
  | some _ =>
    { resp := { status := 400, message := "User already exists with this email",
                code := some "USER_EXISTS" },
      db := db, audit := [] }
  | none =>
    let user : User :=
      { id := freshId, email := email, password := hashPassword password,
        firstName := firstName, lastName := lastName, role := role,
        emailVerificationToken := some verifToken }
    let db2 := db ++ [user]
    let entry : AuditEntry :=
      { user := freshId, action := "REGISTER", resource := "User",
        resourceId := freshId, details := [("email", email), ("role", role)],
        ipAddress := some ip, userAgent := some ua,
        severity := "LOW", status := "SUCCESS" }
    match createLog entry with
    | .error _ =>
      { resp := { status := 500, message := "Registration failed",
                  code := some "REGISTRATION_ERROR" },
        db := db2, audit := [] }
    | .ok e =>
      let token := generateToken secret now freshId
      { resp := { status := 201,
                  message := "User registered successfully. Please check your email for verification.",
                  token := some token, user := some (toView user) },
        db := db2, audit := [e] }

/-- POST /auth/forgot-password from routes/auth.js lines 296-352: silent
generic success when no account matches; otherwise a fresh one-hour
reset token is stored, the reset email is sent, and a send failure is
surfaced as 500 before the audit and the generic success. -/
def forgotPassword (db : Db) (now : Millis) (ip ua : String)
    (email : String) (resetToken : String) (emailOk : Bool) : Outcome :=
  match findByEmail db email with
  | none =>
    { resp := { status := 200, message := genericResetMessage },
      db := db, audit := [] }
  | some user =>
    let u2 := { user with passwordResetToken := some resetToken,
                          passwordResetExpires := some (now + 60 * 60 * 1000) }
    let db2 := saveUser db u2
    if !emailOk then
      { resp := { status := 500, message := "Failed to send password reset email",
                  code := some "EMAIL_SEND_ERROR" },
        db := db2, audit := [] }
    else
      let entry : AuditEntry :=
        { user := user.id, action := "PASSWORD_RESET", resource := "User",
          resourceId := user.id,
          details := [("email", email), ("action", "requested")],
          ipAddress := some ip, userAgent := some ua,
          severity := "MEDIUM", status := "SUCCESS" }
      match createLog entry with
      | .error _ =>
        { resp := { status := 500, message := "Password reset request failed",
                    code := some "PASSWORD_RESET_ERROR" },
          db := db2, audit := [] }
      | .ok e =>
        { resp := { status := 200, message := genericResetMessage },
          db := db2, audit := [e] }

/-- The mongoose query of the reset-password route: a user holding this
reset token whose expiry is strictly later than now. -/
def findByResetToken (db : Db) (now : Millis) (token : String) : Option User :=
  db.find? (fun u =>
    u.passwordResetToken == some token
      && match u.passwordResetExpires with
         | some e => decide (now < e)
         | none => false)

/-- POST /auth/reset-password from routes/auth.js lines 355-409: lookup by
unexpired token, else 400 INVALID_TOKEN; on success the password hash is
replaced, the token and expiry are cleared, the confirmation email is
best-effort, and a PASSWORD_RESET audit is recorded. -/
def resetPassword (db : Db) (now : Millis) (ip ua : String)
    (token password : String) : Outcome :=
  match findByResetToken db now token with
  | none =>
    { resp := { status := 400, message := "Invalid or expired reset token",
                code := some "INVALID_TOKEN" },
      db := db, audit := [] }
  | some user =>
    let u2 := { user with password := hashPassword password,
                          passwordResetToken := none,
                          passwordResetExpires := none }
    let db2 := saveUser db u2
    let entry : AuditEntry :=
      { user := user.id, action := "PASSWORD_RESET", resource := "User",
        resourceId := user.id,
        details := [("email", user.email), ("action", "completed")],
        ipAddress := some ip, userAgent := some ua,
        severity := "MEDIUM", status := "SUCCESS" }
    match createLog entry with
    | .error _ =>
      { resp := { status := 500, message := "Password reset failed",
                  code := some "PASSWORD_RESET_ERROR" },
        db := db2, audit := [] }
    | .ok e =>
      { resp := { status := 200, message := "Password reset successful" },
        db := db2, audit := [e] }

/-- DELETE /users/:id handler (admin-guarded) from the user routes file:
self-deletion is rejected with 400 before any lookup or mutation;
otherwise the target is soft-deleted by clearing the active flag and
prefixing the email with a deletion placeholder, and a HIGH USER_DELETE
audit is recorded. -/
def deleteUser (db : Db) (now : Millis) (admin : User) (ip ua : String)
    (targetId : Nat) : Outcome :=
  if targetId == admin.id then
    { resp := { status := 400, message := "Cannot delete your own account",
                code := some "CANNOT_DELETE_SELF" },
      db := db, audit := [] }
  else
    match findById db targetId with
    | none =>
      { resp := { status := 404, message := "User not found",
                  code := some "USER_NOT_FOUND" },
        db := db, audit := [] }
    | some user =>
      let u2 := { user with isActive := false,
                            email := "deleted_" ++ toString now ++ "_" ++ user.email }
      let db2 := saveUser db u2
      let entry : AuditEntry :=
        { user := admin.id, action := "USER_DELETE", resource := "User",
          resourceId := targetId,
          details := [("targetUser", u2.email), ("deletedBy", admin.email)],
          ipAddress := some ip, userAgent := some ua,
          severity := "HIGH", status := "SUCCESS" }
      match createLog entry with
      | .error _ =>
        { resp := { status := 500, message := "Failed to delete user",
                    code := some "DELETE_USER_ERROR" },
          db := db2, audit := [] }
      | .ok e =>
        { resp := { status := 200, message := "User deleted successfully" },
          db := db2, audit := [e] }

/-- The audit event a guard submitted on denial, when it denied. -/
def submittedAudit : GuardOutcome → Option AuditEntry
  | .denied _ e => some e
  | _ => none

/-- A student account used as a concrete probe. -/
def exStudent : User :=
  { id := 2, email := "student@example.com", password := hashPassword "Passw0rd!",
    firstName := "Stu", lastName := "Dent", role := "student" }

/-- A locked account used as a concrete probe. -/
def exLocked : User :=
  { id := 3, email := "locked@example.com", password := hashPassword "Passw0rd!",
    firstName := "Lo", lastName := "Cked", role := "student",
    lockUntil := some 1000000 }

/-- Claim C7: issuing a session token for an account id and verifying it
before the configured expiry yields the same account id; verifying it
after the expiry fails with TokenExpired. -/
theorem token_roundtrip (secret : String) (userId : Nat) (now t : Millis) :
    (t < now + jwtExpiresInMs →
      jwtVerify secret t (generateToken secret now userId) = .ok userId) ∧
    (now + jwtExpiresInMs ≤ t →
      jwtVerify secret t (generateToken secret now userId) = .error .tokenExpired) := by
  constructor
  · intro h
    simp [jwtVerify, generateToken, Nat.not_le.mpr h]
  · intro h
    simp [jwtVerify, generateToken, h]

/-- Witness for token_roundtrip at a concrete id, issue time and clock. -/
theorem token_roundtrip_witness :
    jwtVerify "s" 5 (generateToken "s" 0 7) = .ok 7 ∧
    jwtVerify "s" jwtExpiresInMs (generateToken "s" 0 7) = .error .tokenExpired :=
  ⟨(token_roundtrip "s" 7 0 5).1 (by decide),
   (token_roundtrip "s" 7 0 jwtExpiresInMs).2 (by decide)⟩

/-- Claim C1: a denial by the Authorization Guard submits an audit event
with action UNAUTHORIZED_ACCESS, severity HIGH and status FAILURE, but
that action is missing from the AuditLog schema enum, so createLog
rejects the append instead of accepting it: no audit event is persisted
on role-check or permission-check denial. -/
theorem unauthorized_access_audit_rejected :
    (submittedAudit (requireRole ["admin"] (some exStudent) "/api/users" "GET" "ip" "ua")).map
        (fun e => (e.action, e.severity, e.status))
      = some ("UNAUTHORIZED_ACCESS", "HIGH", "FAILURE") ∧
    (submittedAudit (requireRole ["admin"] (some exStudent) "/api/users" "GET" "ip" "ua")).map
        createLog
      = some (.error "AuditLog validation failed") ∧
    (submittedAudit (requirePermission "course:create" (fun _ => false)
        (some exStudent) "/api/courses" "POST" "ip" "ua")).map createLog
      = some (.error "AuditLog validation failed") ∧
    auditActionEnum.contains "UNAUTHORIZED_ACCESS" = false :=
  ⟨rfl, rfl, rfl, rfl⟩

/-- Claim C10: when the requester is authenticated, their role is not in
the allowed-roles list, a resource id is present in the params, and no
resource was attached to the request, requireOwnershipOrRole passes the
request through; the owner-equality comparison runs only when a prior
handler attached the resource. -/
theorem ownership_guard_skips_unattached (allowedRoles : List String)
    (req : OwnershipReq) (u : User) (rid : String)
    (hu : req.user = some u)
    (hrole : allowedRoles.contains u.role = false)
    (hid : req.paramsId = some rid) :
    (req.resourceOwner = none → requireOwnershipOrRole allowedRoles req = .next) ∧
    (∀ owner, req.resourceOwner = some owner →
      requireOwnershipOrRole allowedRoles req =
        (if owner ≠ toString u.id then
          .reject { status := 403, message := "Access denied - not resource owner",
                    code := some "NOT_RESOURCE_OWNER" }
         else .next)) := by
  constructor
  · intro hro
    simp [requireOwnershipOrRole, hu, hrole, hid, hro]
  · intro owner hro
    have hnm : u.role ∉ allowedRoles := by simpa using hrole
    simp [requireOwnershipOrRole, hu, hrole, hid, hro, hnm]

/-- Witness for ownership_guard_skips_unattached: a student with no
attached resource passes; with an attached resource owned by someone
else the guard denies with 403. -/
theorem ownership_guard_skips_unattached_witness :
    requireOwnershipOrRole ["admin"]
      { user := some exStudent, paramsId := some "9", resourceOwner := none } = .next ∧
    requireOwnershipOrRole ["admin"]
      { user := some exStudent, paramsId := some "9", resourceOwner := some "9" } =
      .reject { status := 403, message := "Access denied - not resource owner",
                code := some "NOT_RESOURCE_OWNER" } := by
  constructor
  · exact (ownership_guard_skips_unattached ["admin"]
      { user := some exStudent, paramsId := some "9", resourceOwner := none }
      exStudent "9" rfl (by decide) rfl).1 rfl
  · have h := (ownership_guard_skips_unattached ["admin"]
      { user := some exStudent, paramsId := some "9", resourceOwner := some "9" }
      exStudent "9" rfl (by decide) rfl).2 "9" rfl
    simpa using h

/-- Claim C2 counterexample: a request on a bearer-token-protected route
whose token account is locked is rejected with HTTP 401, not 423. -/
theorem locked_bearer_not_423 :
    authenticateToken [exLocked] "s" 0 (some (generateToken "s" 0 3)) =
      .fail { status := 401, message := "Account is temporarily locked",
              code := some "ACCOUNT_LOCKED" } ∧
    (401 : Nat) ≠ 423 :=
  ⟨rfl, by decide⟩

/-- Claim C2 amended: a locked account is rejected with 423 on POST
/auth/login, while a bearer-token-protected route rejects a valid token
whose account is locked with 401 and code ACCOUNT_LOCKED. -/
theorem locked_account_rejection_statuses :
    (∀ (db : Db) (now : Millis) (secret ip ua email pw : String) (u : User),
      findByEmail db email = some u → isLocked now u = true →
      (login db now secret ip ua email pw).resp =
        { status := 423,
          message := "Account is temporarily locked due to too many failed login attempts",
          code := some "ACCOUNT_LOCKED" }) ∧
    (∀ (db : Db) (now : Millis) (secret : String) (t : Token) (u : User),
      jwtVerify secret now t = .ok u.id → findById db u.id = some u →
      u.isActive = true → isLocked now u = true →
      authenticateToken db secret now (some t) =
        .fail { status := 401, message := "Account is temporarily locked",
                code := some "ACCOUNT_LOCKED" }) := by
  constructor
  · intro db now secret ip ua email pw u hfind hlock
    simp [login, hfind, hlock]
  · intro db now secret t u hver hfind hact hlock
    simp [authenticateToken, hver, hfind, hact, hlock]

/-- Witness for locked_account_rejection_statuses on a concrete locked
account, for both the login route and the bearer middleware. -/
theorem locked_account_rejection_statuses_witness :
    (login [exLocked] 0 "s" "ip" "ua" "locked@example.com" "Passw0rd!").resp =
      { status := 423,
        message := "Account is temporarily locked due to too many failed login attempts",
        code := some "ACCOUNT_LOCKED" } ∧
    authenticateToken [exLocked] "s" 0 (some (generateToken "s" 0 3)) =
      .fail { status := 401, message := "Account is temporarily locked",
              code := some "ACCOUNT_LOCKED" } :=
  ⟨locked_account_rejection_statuses.1 [exLocked] 0 "s" "ip" "ua"
     "locked@example.com" "Passw0rd!" exLocked rfl (by decide),
   locked_account_rejection_statuses.2 [exLocked] 0 "s"
     (generateToken "s" 0 3) exLocked rfl rfl (by decide) (by decide)⟩

/-- Claim C3: a login against an account whose lockout-until is in the
future fails with the AccountLocked response for every supplied
password (the lock check precedes the password comparison), and the
5th consecutive failed login sets a lockout expiry in the future. -/
theorem login_lockout :
    (∀ (db : Db) (now : Millis) (secret ip ua email pw : String) (u : User),
      findByEmail db email = some u → isLocked now u = true →
      (login db now secret ip ua email pw).resp.status = 423 ∧
      (login db now secret ip ua email pw).resp.code = some "ACCOUNT_LOCKED") ∧
    (∀ (db : Db) (now : Millis) (secret ip ua email pw : String) (u : User),
      findByEmail db email = some u → isLocked now u = false →
      u.isActive = true → comparePassword u pw = false → u.loginAttempts = 4 →
      (login db now secret ip ua email pw).db = saveUser db (incLoginAttempts now u) ∧
      (incLoginAttempts now u).lockUntil = some (now + lockoutDurationMs) ∧
      now < now + lockoutDurationMs) := by
  constructor
  · intro db now secret ip ua email pw u hfind hlock
    simp [login, hfind, hlock]
  · intro db now secret ip ua email pw u hfind hlock hact hpw hcnt
    refine ⟨?_, ?_, ?_⟩
    · simp [login, hfind, hlock, hact, hpw, createLog, auditActionEnum, auditSeverityEnum, auditStatusEnum]
    · simp [incLoginAttempts, lockoutThreshold, hcnt]
    · simp [lockoutDurationMs]

/-- Witness for login_lockout: a locked account rejects the correct
password with 423, and an account at four failed attempts gets a future
lockout from a fifth failure. -/
theorem login_lockout_witness :
    ((login [exLocked] 0 "s" "ip" "ua" "locked@example.com" "Passw0rd!").resp.status = 423 ∧
     (login [exLocked] 0 "s" "ip" "ua" "locked@example.com" "Passw0rd!").resp.code =
       some "ACCOUNT_LOCKED") ∧
    ((login [{ exStudent with loginAttempts := 4 }] 0 "s" "ip" "ua"
        "student@example.com" "wrong").db =
       saveUser [{ exStudent with loginAttempts := 4 }]
         (incLoginAttempts 0 { exStudent with loginAttempts := 4 }) ∧
     (incLoginAttempts 0 { exStudent with loginAttempts := 4 }).lockUntil =
       some (0 + lockoutDurationMs) ∧
     0 < 0 + lockoutDurationMs) :=
  ⟨login_lockout.1 [exLocked] 0 "s" "ip" "ua" "locked@example.com" "Passw0rd!"
     exLocked rfl (by decide),
   login_lockout.2 [{ exStudent with loginAttempts := 4 }] 0 "s" "ip" "ua"
     "student@example.com" "wrong" { exStudent with loginAttempts := 4 }
     rfl (by decide) (by decide) (by decide) rfl⟩

/-- Claim C5: a login with an unknown email and a login with a known
email but a wrong password produce the same client-visible failure:
identical responses, both 401 INVALID_CREDENTIALS. -/
theorem login_enumeration_indistinguishable
    (db : Db) (now : Millis) (secret ip ua : String)
    (e1 pw1 e2 pw2 : String) (u : User)
    (h1 : findByEmail db e1 = none)
    (h2 : findByEmail db e2 = some u)
    (hl : isLocked now u = false) (ha : u.isActive = true)
    (hp : comparePassword u pw2 = false) :
    (login db now secret ip ua e1 pw1).resp = (login db now secret ip ua e2 pw2).resp ∧
    (login db now secret ip ua e1 pw1).resp.status = 401 ∧
    (login db now secret ip ua e1 pw1).resp.code = some "INVALID_CREDENTIALS" := by
  refine ⟨?_, ?_, ?_⟩
  · simp [login, h1, h2, hl, ha, hp, createLog, auditActionEnum, auditSeverityEnum, auditStatusEnum]
  · simp [login, h1]
  · simp [login, h1]

/-- Witness for login_enumeration_indistinguishable: an absent email and
a wrong password against a stored student yield equal responses. -/
theorem login_enumeration_indistinguishable_witness :
    (login [exStudent] 0 "s" "ip" "ua" "ghost@example.com" "x").resp =
      (login [exStudent] 0 "s" "ip" "ua" "student@example.com" "wrong").resp ∧
    (login [exStudent] 0 "s" "ip" "ua" "ghost@example.com" "x").resp.status = 401 ∧
    (login [exStudent] 0 "s" "ip" "ua" "ghost@example.com" "x").resp.code =
      some "INVALID_CREDENTIALS" :=
  login_enumeration_indistinguishable [exStudent] 0 "s" "ip" "ua"
    "ghost@example.com" "x" "student@example.com" "wrong" exStudent
    rfl rfl (by decide) (by decide) (by decide)

/-- Claim C6: forgot-password returns the identical success response for
an email with an account (whose reset email sends) and for an email with
no account. -/
theorem forgot_password_uniform
    (db : Db) (now : Millis) (ip ua : String)
    (e1 e2 rt1 rt2 : String) (u : User)
    (h1 : findByEmail db e1 = some u)
    (h2 : findByEmail db e2 = none) :
    (forgotPassword db now ip ua e1 rt1 true).resp =
      (forgotPassword db now ip ua e2 rt2 true).resp ∧
    (forgotPassword db now ip ua e1 rt1 true).resp =
      { status := 200, message := genericResetMessage } := by
  constructor
  · simp [forgotPassword, h1, h2, createLog, auditActionEnum, auditSeverityEnum, auditStatusEnum]
  · simp [forgotPassword, h1, createLog, auditActionEnum, auditSeverityEnum, auditStatusEnum]

/-- Witness for forgot_password_uniform at a stored student and an
unknown address. -/
theorem forgot_password_uniform_witness :
    (forgotPassword [exStudent] 0 "ip" "ua" "student@example.com" "rt" true).resp =
      (forgotPassword [exStudent] 0 "ip" "ua" "ghost@example.com" "rt2" true).resp ∧
    (forgotPassword [exStudent] 0 "ip" "ua" "student@example.com" "rt" true).resp =
      { status := 200, message := genericResetMessage } :=
  forgot_password_uniform [exStudent] 0 "ip" "ua" "student@example.com"
    "ghost@example.com" "rt" "rt2" exStudent rfl rfl

/-- An account holding a live reset token, used as a concrete probe. -/
def exReset : User :=
  { id := 5, email := "carol@example.com", password := hashPassword "Old1!",
    firstName := "Ca", lastName := "Rol", role := "student",
    passwordResetToken := some "rt", passwordResetExpires := some 2000 }

/-- An admin account used as a concrete probe. -/
def exAdmin : User :=
  { id := 1, email := "admin@example.com", password := hashPassword "Adm1n!",
    firstName := "Ad", lastName := "Min", role := "admin" }

/-- Claim C4: reset-password fails with InvalidToken when no account
holds the token unexpired, and a successful reset clears the token and
its expiry, so reusing the token (when it named a unique account) fails
with InvalidToken. -/
theorem reset_token_single_use :
    (∀ (db : Db) (now : Millis) (ip ua tok pw : String),
      findByResetToken db now tok = none →
      (resetPassword db now ip ua tok pw).resp =
        { status := 400, message := "Invalid or expired reset token",
          code := some "INVALID_TOKEN" }) ∧
    (∀ (db : Db) (now now2 : Millis) (ip ua ip2 ua2 tok pw pw2 : String) (u : User),
      findByResetToken db now tok = some u →
      (∀ v ∈ db, v.passwordResetToken = some tok → v.id = u.id) →
      (resetPassword db now ip ua tok pw).resp.status = 200 ∧
      (resetPassword (resetPassword db now ip ua tok pw).db now2 ip2 ua2 tok pw2).resp =
        { status := 400, message := "Invalid or expired reset token",
          code := some "INVALID_TOKEN" }) := by
  constructor
  · intro db now ip ua tok pw hfind
    simp [resetPassword, hfind]
  · intro db now now2 ip ua ip2 ua2 tok pw pw2 u hfind huniq
    have hdb : (resetPassword db now ip ua tok pw).db =
        saveUser db { u with password := hashPassword pw,
                             passwordResetToken := none,
                             passwordResetExpires := none } := by
      simp [resetPassword, hfind, createLog, auditActionEnum, auditSeverityEnum,
            auditStatusEnum]
    have hnone : findByResetToken
        (saveUser db { u with password := hashPassword pw,
                              passwordResetToken := none,
                              passwordResetExpires := none }) now2 tok = none := by
      apply List.find?_eq_none.mpr
      intro x hx
      obtain ⟨v, hv, rfl⟩ := List.mem_map.mp hx
      by_cases hid : v.id = u.id
      · simp [hid]
      · simp only [beq_iff_eq, hid, if_false, Bool.and_eq_true, not_and]
        intro hpt
        exact False.elim (hid (huniq v hv hpt))
    constructor
    · simp [resetPassword, hfind, createLog, auditActionEnum, auditSeverityEnum,
            auditStatusEnum]
    · rw [hdb]
      simp [resetPassword, hnone]

/-- Witness for reset_token_single_use: resetting with an unknown token
is rejected, and on a store holding one live token a reset succeeds and
an immediate reuse of the token is rejected. -/
theorem reset_token_single_use_witness :
    (resetPassword ([] : Db) 0 "ip" "ua" "nope" "New1!").resp =
      { status := 400, message := "Invalid or expired reset token",
        code := some "INVALID_TOKEN" } ∧
    ((resetPassword [exReset] 0 "ip" "ua" "rt" "New1!").resp.status = 200 ∧
     (resetPassword (resetPassword [exReset] 0 "ip" "ua" "rt" "New1!").db
        0 "ip" "ua" "rt" "New2!").resp =
       { status := 400, message := "Invalid or expired reset token",
         code := some "INVALID_TOKEN" }) :=
  ⟨reset_token_single_use.1 [] 0 "ip" "ua" "nope" "New1!" rfl,
   reset_token_single_use.2 [exReset] 0 0 "ip" "ua" "ip" "ua" "rt" "New1!" "New2!"
     exReset rfl (by decide)⟩

/-- Claim C8: a verification email failure does not fail registration,
which still returns 201 with a token and the created account, while a
reset email failure makes forgot-password return 500 instead of the
generic success. -/
theorem email_failure_asymmetry :
    (∀ (db : Db) (now : Millis) (secret ip ua email pw fn ln role vt : String) (fid : Nat),
      findByEmail db email = none →
      (register db now secret ip ua email pw fn ln role vt fid false).resp.status = 201 ∧
      (register db now secret ip ua email pw fn ln role vt fid false).resp.token =
        some (generateToken secret now fid) ∧
      (register db now secret ip ua email pw fn ln role vt fid false).resp.user.isSome
        = true) ∧
    (∀ (db : Db) (now : Millis) (ip ua email rt : String) (u : User),
      findByEmail db email = some u →
      (forgotPassword db now ip ua email rt false).resp =
        { status := 500, message := "Failed to send password reset email",
          code := some "EMAIL_SEND_ERROR" }) := by
  constructor
  · intro db now secret ip ua email pw fn ln role vt fid hfind
    refine ⟨?_, ?_, ?_⟩ <;>
      simp [register, hfind, createLog, auditActionEnum, auditSeverityEnum,
            auditStatusEnum]
  · intro db now ip ua email rt u hfind
    simp [forgotPassword, hfind]

/-- Witness for email_failure_asymmetry: a fresh registration with a
failing email send still succeeds, and forgot-password for a stored
student with a failing send returns the 500 error. -/
theorem email_failure_asymmetry_witness :
    ((register [] 0 "s" "ip" "ua" "a@b.example" "Passw0rd!" "Al" "Ba" "student"
        "vt" 10 false).resp.status = 201 ∧
     (register [] 0 "s" "ip" "ua" "a@b.example" "Passw0rd!" "Al" "Ba" "student"
        "vt" 10 false).resp.token = some (generateToken "s" 0 10) ∧
     (register [] 0 "s" "ip" "ua" "a@b.example" "Passw0rd!" "Al" "Ba" "student"
        "vt" 10 false).resp.user.isSome = true) ∧
    (forgotPassword [exStudent] 0 "ip" "ua" "student@example.com" "rt" false).resp =
      { status := 500, message := "Failed to send password reset email",
        code := some "EMAIL_SEND_ERROR" } :=
  ⟨email_failure_asymmetry.1 [] 0 "s" "ip" "ua" "a@b.example" "Passw0rd!" "Al" "Ba"
     "student" "vt" 10 rfl,
   email_failure_asymmetry.2 [exStudent] 0 "ip" "ua" "student@example.com" "rt"
     exStudent rfl⟩

/-- Claim C9: deleting another user is a soft delete — the active flag is
cleared and the email rewritten to a deletion placeholder while the
record stays in the store with unchanged length — and an admin deleting
their own id is rejected with 400 leaving the store untouched. -/
theorem soft_delete_and_self_guard :
    (∀ (db : Db) (now : Millis) (admin : User) (ip ua : String) (targetId : Nat) (u : User),
      targetId ≠ admin.id → findById db targetId = some u →
      (deleteUser db now admin ip ua targetId).resp.status = 200 ∧
      (deleteUser db now admin ip ua targetId).db =
        saveUser db { u with isActive := false,
                             email := "deleted_" ++ toString now ++ "_" ++ u.email } ∧
      { u with isActive := false,
               email := "deleted_" ++ toString now ++ "_" ++ u.email } ∈
        (deleteUser db now admin ip ua targetId).db ∧
      ((deleteUser db now admin ip ua targetId).db).length = db.length) ∧
    (∀ (db : Db) (now : Millis) (admin : User) (ip ua : String),
      (deleteUser db now admin ip ua admin.id).resp =
        { status := 400, message := "Cannot delete your own account",
          code := some "CANNOT_DELETE_SELF" } ∧
      (deleteUser db now admin ip ua admin.id).db = db ∧
      (deleteUser db now admin ip ua admin.id).audit = []) := by
  constructor
  · intro db now admin ip ua targetId u htg hfind
    have hmem : u ∈ db := List.mem_of_find?_eq_some hfind
    have hdb : (deleteUser db now admin ip ua targetId).db =
        saveUser db { u with isActive := false,
                             email := "deleted_" ++ toString now ++ "_" ++ u.email } := by
      simp [deleteUser, htg, hfind, createLog, auditActionEnum, auditSeverityEnum,
            auditStatusEnum]
    refine ⟨?_, hdb, ?_, ?_⟩
    · simp [deleteUser, htg, hfind, createLog, auditActionEnum, auditSeverityEnum,
            auditStatusEnum]
    · rw [hdb]
      exact List.mem_map.mpr ⟨u, hmem, by simp⟩
    · rw [hdb]
      simp [saveUser]
  · intro db now admin ip ua
    refine ⟨?_, ?_, ?_⟩ <;> simp [deleteUser]

/-- Witness for soft_delete_and_self_guard: the admin deleting the
student soft-deletes the record, and the admin deleting themselves is
rejected with the store unchanged. -/
theorem soft_delete_and_self_guard_witness :
    ((deleteUser [exAdmin, exStudent] 0 exAdmin "ip" "ua" 2).resp.status = 200 ∧
     (deleteUser [exAdmin, exStudent] 0 exAdmin "ip" "ua" 2).db =
       saveUser [exAdmin, exStudent]
         { exStudent with isActive := false,
                          email := "deleted_" ++ toString 0 ++ "_" ++ exStudent.email } ∧
     { exStudent with isActive := false,
                      email := "deleted_" ++ toString 0 ++ "_" ++ exStudent.email } ∈
       (deleteUser [exAdmin, exStudent] 0 exAdmin "ip" "ua" 2).db ∧
     ((deleteUser [exAdmin, exStudent] 0 exAdmin "ip" "ua" 2).db).length =
       ([exAdmin, exStudent] : Db).length) ∧
    ((deleteUser [exAdmin, exStudent] 0 exAdmin "ip" "ua" exAdmin.id).resp =
       { status := 400, message := "Cannot delete your own account",
         code := some "CANNOT_DELETE_SELF" } ∧
     (deleteUser [exAdmin, exStudent] 0 exAdmin "ip" "ua" exAdmin.id).db =
       [exAdmin, exStudent] ∧
     (deleteUser [exAdmin, exStudent] 0 exAdmin "ip" "ua" exAdmin.id).audit = []) :=
  ⟨soft_delete_and_self_guard.1 [exAdmin, exStudent] 0 exAdmin "ip" "ua" 2 exStudent
     (by decide) rfl,
   soft_delete_and_self_guard.2 [exAdmin, exStudent] 0 exAdmin "ip" "ua"⟩

end Skillexa
